import Mathlib

/-!
Shallow embedding of the Cart-iA backend's chat/action core.

The definitions below are translated from the repository's source:
  - `backend/src/chat/chat.service.ts` (ChatService: addUserMessage,
    getChatSession, confirmAction, addMessageToSession and the SQL they run),
  - `backend/src/chat/chat.controller.ts` (ChatController.addUserMessage),
  - `backend/src/shared/llm/openai-llm.service.ts` (OpenAiLlmService.embedInput),
  - `backend/src/shared/llm/gemini-llm.service.ts` (GeminiLlmService.embedInput).

The relational store is modelled as explicit state (`Db`): each table is a
list of rows in insertion order, `NOW()` is a logical clock advanced by one
at every write, and SQL queries are translated to list operations with the
usual list semantics (scans and aggregations enumerate rows in table order).
Provider (LLM/network) calls are modelled as oracle function parameters:
`none` stands for a thrown/failed call, `some` for a successful response.
Cosine distance (the pgvector `<=>` operator) is an uninterpreted function
parameter `dist`.
-/

namespace CartIA

/-- Message sender, the `sender` column ('user' | 'assistant'). -/
inductive Sender where
  | user
  | assistant
deriving DecidableEq, Repr

/-- The `message_type` column ('text' | 'suggest_carts_result'). -/
inductive MessageType where
  | text
  | suggestCartsResult
deriving DecidableEq, Repr

/-- A row of `chat_sessions`. -/
structure ChatSessionRow where
  id : Nat
  user_id : Nat
  created_at : Nat
deriving DecidableEq, Repr

/-- A row of `chat_messages`. -/
structure ChatMessageRow where
  id : Nat
  chat_session_id : Nat
  content : String
  sender : Sender
  openai_message_id : Option String
  message_type : MessageType
  created_at : Nat
deriving DecidableEq, Repr

/-- A row of `chat_messages_actions`. The `payload` column is a JSON object
of shape `{input: string}` (see the `ChatMessageAction` type in
chat.service.ts), modelled by its single field `payload_input`. -/
structure ChatMessageActionRow where
  id : Nat
  chat_message_id : Nat
  action_type : String
  payload_input : String
  created_at : Nat
  confirmed_at : Option Nat
  executed_at : Option Nat
deriving DecidableEq, Repr

/-- A row of `products` (columns used by the chat core: id, name, price,
store_id, embedding; `embedding` is a nullable pgvector column). -/
structure ProductRow where
  id : Nat
  name : String
  price : Int
  store_id : Nat
  embedding : Option (List ℚ)
deriving DecidableEq, Repr

/-- The database state: the tables touched by the chat core, id sequences,
and the logical clock standing for `NOW()`. -/
structure Db where
  chat_sessions : List ChatSessionRow
  chat_messages : List ChatMessageRow
  chat_messages_actions : List ChatMessageActionRow
  products : List ProductRow
  nextMessageId : Nat
  nextActionId : Nat
  now : Nat
deriving DecidableEq, Repr

/-- The NestJS HTTP exceptions thrown by the controller/service code. -/
inductive ApiError where
  | notFound (message : String)
  | conflict (message : String)
  | badGateway (message : String)
  | internalServerError (message : String)
  | badRequest (message : String)
deriving DecidableEq, Repr

/-! ### Provider responses and embedInput (openai-llm.service.ts / gemini-llm.service.ts) -/

/-- One element of `response.data` in OpenAI's CreateEmbeddingResponse. -/
structure EmbeddingDatum where
  embedding : List ℚ
deriving DecidableEq, Repr

/-- OpenAI's CreateEmbeddingResponse, the part read by embedInput. -/
structure CreateEmbeddingResponse where
  data : List EmbeddingDatum
deriving DecidableEq, Repr

/-- OpenAiLlmService.embedInput: calls `client.embeddings.create` and returns
`{ embedding: response.data[0].embedding }`. The whole body is inside a
try/catch that returns null on any error; `response = none` models a thrown
API call, and an empty `data` array makes `response.data[0].embedding` throw,
which the catch also turns into null. No dimensionality check is performed:
the first embedding of the response is returned as-is. -/
def OpenAiLlm.embedInput (response : Option CreateEmbeddingResponse) : Option (List ℚ) :=
  match response with
  | none => none
  | some r =>
    match r.data.head? with
    | none => none
    | some d => some d.embedding

/-- One element of `result.embeddings` in Gemini's embedContent result
(`values` is optional). -/
structure GeminiContentEmbedding where
  values : Option (List ℚ)
deriving DecidableEq, Repr

/-- Gemini's embedContent result, the part read by embedInput
(`embeddings` itself is optional). -/
structure GeminiEmbedResponse where
  embeddings : Option (List GeminiContentEmbedding)
deriving DecidableEq, Repr

/-- GeminiLlmService.embedInput: requests outputDimensionality 1536 but does
not check the returned length. It evaluates
`result.embeddings ? result.embeddings[0].values : null`, returns null when
that is null/undefined (including the throw on an empty embeddings array,
caught by the surrounding try/catch), and otherwise returns
`{ embedding: embeddings }` unchanged. -/
def GeminiLlm.embedInput (response : Option GeminiEmbedResponse) : Option (List ℚ) :=
  match response with
  | none => none
  | some r =>
    match r.embeddings with
    | none => none
    | some [] => none
    | some (e :: _) =>
      match e.values with
      | none => none
      | some vs => some vs

/-! ### Retrieval (the SQL inside ChatService.confirmAction) -/

/-- The similarity threshold of the retrieval query:
`WHERE p.embedding <=> $1 < 0.65`. -/
def THRESHOLD : ℚ := 65 / 100

/-- One element of the JSON_AGG aggregate built by the retrieval query. The
SQL aliases the computed distance `p.embedding <=> $1` under the key
`similary` (sic, the source misspells similarity). -/
structure CandidateProduct where
  id : Nat
  name : String
  price : Int
  similary : ℚ
deriving DecidableEq, Repr

/-- One output row of the retrieval query: a store id with the JSON_AGG of
its qualifying products (`GROUP BY store_id`). -/
structure StoreGroup where
  store_id : Nat
  products : List CandidateProduct
deriving DecidableEq, Repr

/-- The distance `p.embedding <=> $1` of one product row to the query
vector; `none` when the embedding column is NULL (SQL: NULL compares to
NULL, so the row fails the WHERE clause). -/
def rowDistance (dist : List ℚ → List ℚ → ℚ) (query : List ℚ) (p : ProductRow) : Option ℚ :=
  p.embedding.map (fun e => dist e query)

/-- The rows of `products` passing `WHERE p.embedding <=> $1 < 0.65`,
each paired with its computed distance. -/
def relevantRows (dist : List ℚ → List ℚ → ℚ) (query : List ℚ) (prods : List ProductRow) : List (ProductRow × ℚ) :=
  prods.filterMap (fun p =>
    match rowDistance dist query p with
    | some d => if d < THRESHOLD then some (p, d) else none
    | none => none)

/-- The JSON_BUILD_OBJECT of the retrieval query: id, name, price, and the
distance under the (misspelled) key `similary`. -/
def mkCandidate (r : ProductRow × ℚ) : CandidateProduct :=
  { id := r.1.id, name := r.1.name, price := r.1.price, similary := r.2 }

/-- The retrieval query of ChatService.confirmAction: filter `products` by
distance strictly below the threshold, then GROUP BY store_id with a
JSON_AGG of the qualifying products. A group exists only for a store id
that occurs among the qualifying rows, so a store with no qualifying
product yields no (empty) group at all. -/
def retrieveRelevantProducts (dist : List ℚ → List ℚ → ℚ) (query : List ℚ) (prods : List ProductRow) : List StoreGroup :=
  let rows := relevantRows dist query prods
  ((rows.map (fun r => r.1.store_id)).dedup).map (fun sid =>
    { store_id := sid
      products := (rows.filter (fun r => r.1.store_id == sid)).map mkCandidate })

/-! ### LLM turn completion result (answerMessage) -/

/-- The discriminated union `action` of the answerMessageSchema:
send_message, or suggest_carts with payload `{input}`. -/
inductive ProposedAction where
  | send_message
  | suggest_carts (input : String)
deriving DecidableEq, Repr

/-- A successful answerMessage result: `{message, action, responseId}`. -/
structure LlmAnswer where
  message : String
  action : ProposedAction
  responseId : String
deriving DecidableEq, Repr

/-! ### ChatService (chat.service.ts) -/

/-- ChatService.addMessageToSession: INSERT INTO chat_messages ... RETURNING *.
Returns the inserted row and the updated state; `created_at` is the current
clock, which then advances. -/
def addMessageToSession (st : Db) (sessionId : Nat) (content : String) (sender : Sender)
    (openaiMessageId : Option String) (messageType : MessageType) : ChatMessageRow × Db :=
  let row : ChatMessageRow :=
    { id := st.nextMessageId, chat_session_id := sessionId, content := content, sender := sender,
      openai_message_id := openaiMessageId, message_type := messageType, created_at := st.now }
  (row, { st with
            chat_messages := st.chat_messages ++ [row],
            nextMessageId := st.nextMessageId + 1,
            now := st.now + 1 })

/-- The first query of ChatService.addUserMessage:
SELECT openai_message_id FROM chat_messages WHERE chat_session_id = $1 AND
sender = 'assistant' ORDER BY created_at DESC LIMIT 1 — the row with the
greatest created_at among the session's assistant messages. -/
def lastAssistantMessage (st : Db) (sessionId : Nat) : Option ChatMessageRow :=
  (st.chat_messages.filter
      (fun m => decide (m.chat_session_id = sessionId ∧ m.sender = Sender.assistant))).foldl
    (fun acc m =>
      match acc with
      | none => some m
      | some b => if b.created_at < m.created_at then some m else some b)
    none

/-- The JavaScript `x || null` coercion applied to the looked-up
openai_message_id: an empty string is falsy and becomes null. -/
def jsOrNull (s : Option String) : Option String :=
  match s with
  | some "" => none
  | some v => some v
  | none => none

/-- The previous-response handle passed to answerMessage:
`chatMessages.rows[0]?.openai_message_id || null`. -/
def previousResponseRef (st : Db) (sessionId : Nat) : Option String :=
  jsOrNull ((lastAssistantMessage st sessionId).bind (fun m => m.openai_message_id))

/-- The INSERT of ChatService.addUserMessage for a proposed action:
INSERT INTO chat_messages_actions (chat_message_id, action_type, payload)
VALUES ... ON CONFLICT (chat_message_id, action_type) DO NOTHING.
With the uniqueness constraint on (chat_message_id, action_type), the insert
is a no-op exactly when a row with that pair already exists. -/
def insertPendingAction (st : Db) (chatMessageId : Nat) (actionType : String) (input : String) : Db :=
  if st.chat_messages_actions.any
      (fun a => decide (a.chat_message_id = chatMessageId ∧ a.action_type = actionType)) then
    st
  else
    { st with
        chat_messages_actions := st.chat_messages_actions ++
          [{ id := st.nextActionId, chat_message_id := chatMessageId, action_type := actionType,
             payload_input := input, created_at := st.now, confirmed_at := none,
             executed_at := none }],
        nextActionId := st.nextActionId + 1,
        now := st.now + 1 }

/-- ChatService.addUserMessage. The provider call
`llmService.answerMessage(content, prevRef)` is the oracle parameter
`answerMessage`; `none` models a null/failed response, which becomes
BadGatewayException after the user message has already been inserted.
On success the assistant reply is inserted, and when its action type is
suggest_carts a pending action is inserted (ON CONFLICT DO NOTHING);
the originally inserted user message is returned. -/
def addUserMessage (answerMessage : String → Option String → Option LlmAnswer)
    (st : Db) (sessionId : Nat) (content : String) : Except ApiError ChatMessageRow × Db :=
  let prevRef := previousResponseRef st sessionId
  let r1 := addMessageToSession st sessionId content Sender.user none MessageType.text
  match answerMessage content prevRef with
  | none => (Except.error (ApiError.badGateway "Failed to get response from LLM"), r1.2)
  | some llmResponse =>
    let r2 := addMessageToSession r1.2 sessionId llmResponse.message Sender.assistant
      (some llmResponse.responseId) MessageType.text
    match llmResponse.action with
    | ProposedAction.suggest_carts input =>
      (Except.ok r1.1, insertPendingAction r2.2 r2.1.id "suggest_carts" input)
    | ProposedAction.send_message => (Except.ok r1.1, r2.2)

/-- ChatController.addUserMessage: rejects with BadRequestException when the
body's `content` is missing, not a string (both modelled by `none`) or the
empty string, before calling ChatService.addUserMessage. -/
def controllerAddUserMessage (answerMessage : String → Option String → Option LlmAnswer)
    (st : Db) (sessionId : Nat) (content : Option String) : Except ApiError ChatMessageRow × Db :=
  match content with
  | none => (Except.error (ApiError.badRequest "Content must be a non-empty string"), st)
  | some c =>
    if c = "" then (Except.error (ApiError.badRequest "Content must be a non-empty string"), st)
    else addUserMessage answerMessage st sessionId c

/-! ### Session read (ChatService.getChatSession) -/

/-- One element of the JSON_AGG in getChatSession: a message together with
its action object (or null when the left join found no action row). -/
structure SessionMessageView where
  message : ChatMessageRow
  action : Option ChatMessageActionRow
deriving DecidableEq, Repr

/-- The session row with its aggregated message list. -/
structure SessionView where
  id : Nat
  created_at : Nat
  user_id : Nat
  messages : List SessionMessageView
deriving DecidableEq, Repr

/-- The LEFT JOIN of one chat message against chat_messages_actions: the
message paired with each matching action row, or with null when none
matches. -/
def messageWithActions (st : Db) (m : ChatMessageRow) : List SessionMessageView :=
  match st.chat_messages_actions.filter (fun a => decide (a.chat_message_id = m.id)) with
  | [] => [{ message := m, action := none }]
  | acts => acts.map (fun a => { message := m, action := some a })

/-- ChatService.getChatSession: the session row (none when the id does not
exist) with the JSON_AGG over the LEFT JOIN of its messages and their
actions, rows enumerated in table order. -/
def getChatSession (st : Db) (sessionId : Nat) : Option SessionView :=
  match st.chat_sessions.find? (fun s => decide (s.id = sessionId)) with
  | none => none
  | some s =>
    some { id := s.id, created_at := s.created_at, user_id := s.user_id,
           messages :=
             (st.chat_messages.filter (fun m => decide (m.chat_session_id = sessionId))).flatMap
               (messageWithActions st) }

/-! ### Confirmation (ChatService.confirmAction) -/

/-- UPDATE chat_messages_actions SET confirmed_at = NOW() WHERE id = $1. -/
def markConfirmed (st : Db) (actionId : Nat) : Db :=
  { st with
      chat_messages_actions := st.chat_messages_actions.map (fun a =>
        if a.id = actionId then { a with confirmed_at := some st.now } else a),
      now := st.now + 1 }

/-- ChatService.confirmAction. Step by step from the source:
session lookup by id (NotFound when no row); action lookup by
`SELECT * FROM chat_messages_actions WHERE id = $1 AND confirmed_at IS NULL`
taking rows[0] (NotFound when no row); a re-check of rows[0].confirmed_at
throwing ConflictException (kept although the lookup filter makes it
unreachable); the confirmed_at UPDATE; then dispatch on action_type:
for suggest_carts, embed the payload input (BadGateway on null) and run the
retrieval query over the updated state; any other type raises
InternalServerErrorException. `executed_at` is never written. -/
def confirmAction (embedInput : String → Option (List ℚ)) (dist : List ℚ → List ℚ → ℚ)
    (st : Db) (sessionId : Nat) (actionId : Nat) : Except ApiError (List StoreGroup) × Db :=
  if (st.chat_sessions.filter (fun s => decide (s.id = sessionId))).isEmpty then
    (Except.error (ApiError.notFound "Chat session not found"), st)
  else
    match (st.chat_messages_actions.filter
        (fun a => decide (a.id = actionId ∧ a.confirmed_at = none))).head? with
    | none => (Except.error (ApiError.notFound "Action not found or already confirmed"), st)
    | some action =>
      if action.confirmed_at.isSome then
        (Except.error (ApiError.conflict "This action has already been confirmed"), st)
      else
        let st1 := markConfirmed st actionId
        if action.action_type = "suggest_carts" then
          match embedInput action.payload_input with
          | none => (Except.error (ApiError.badGateway "Failed to get embeddings from LLM"), st1)
          | some embedding =>
            (Except.ok (retrieveRelevantProducts dist embedding st1.products), st1)
        else
          (Except.error (ApiError.internalServerError
            ("Action type " ++ action.action_type ++ " is not supported")), st1)

/-! ### Concrete fixtures used by witnesses and counterexamples -/

/-- A chat session row with id 1. -/
def sessionW : ChatSessionRow := { id := 1, user_id := 1, created_at := 0 }

/-- An assistant message that proposed an action. Its chat_session_id is 2,
a session that does not exist in the fixture state, exhibiting that the
confirm path never consults the message's session linkage. -/
def msgW : ChatMessageRow :=
  { id := 3, chat_session_id := 2, content := "Confirma a acao?", sender := Sender.assistant,
    openai_message_id := some "resp-1", message_type := MessageType.text, created_at := 1 }

/-- An unconfirmed suggest_carts action proposed by `msgW`. -/
def actionW : ChatMessageActionRow :=
  { id := 5, chat_message_id := 3, action_type := "suggest_carts",
    payload_input := "bolo de chocolate", created_at := 2, confirmed_at := none,
    executed_at := none }

/-- An unconfirmed action of an unrecognized type. -/
def actionOtherW : ChatMessageActionRow :=
  { id := 6, chat_message_id := 3, action_type := "other_action", payload_input := "x",
    created_at := 2, confirmed_at := none, executed_at := none }

/-- Fixture state: session 1, the assistant message of session 2, the two
pending actions, and an empty catalog. -/
def dbConfirm : Db :=
  { chat_sessions := [sessionW], chat_messages := [msgW],
    chat_messages_actions := [actionW, actionOtherW], products := [],
    nextMessageId := 4, nextActionId := 7, now := 3 }

/-- The fixture state after action 5 has already been confirmed. -/
def dbConfirmed : Db :=
  { dbConfirm with
      chat_messages_actions := [{ actionW with confirmed_at := some 2 }, actionOtherW] }

/-- An embedding oracle that succeeds with the empty vector. -/
def embedOk : String → Option (List ℚ) := fun _ => some []

/-- An embedding oracle whose provider call fails. -/
def embedFail : String → Option (List ℚ) := fun _ => none

/-- A trivial distance function for fixtures with an empty catalog. -/
def dist0 : List ℚ → List ℚ → ℚ := fun _ _ => 0

/-- A turn-completion oracle whose provider call fails. -/
def llmFail : String → Option String → Option LlmAnswer := fun _ _ => none

/-! ### Helper lemmas -/

/-- An element selected by head? from a filtered list is a member of the
base list and satisfies the filter predicate. -/
theorem head?_filter_prop {α : Type} (p : α → Bool) (l : List α) (a : α)
    (h : (l.filter p).head? = some a) : a ∈ l ∧ p a = true := by
  have ha : a ∈ l.filter p := by
    rcases List.head?_eq_some_iff.mp h with ⟨ys, hys⟩
    rw [hys]
    exact List.mem_cons_self _ _
  exact List.mem_filter.mp ha

/-- Once the session exists and the action lookup returns a row, the
confirmed_at UPDATE always happens, and the outcome of confirmAction is
entirely determined by the row's action_type and the embedding oracle. -/
theorem confirmAction_past_lookup (embedInput : String → Option (List ℚ))
    (dist : List ℚ → List ℚ → ℚ) (st : Db) (sid aid : Nat) (a : ChatMessageActionRow)
    (hsession : ∃ s ∈ st.chat_sessions, s.id = sid)
    (hfind : (st.chat_messages_actions.filter
        (fun x => decide (x.id = aid ∧ x.confirmed_at = none))).head? = some a) :
    confirmAction embedInput dist st sid aid =
      ((if a.action_type = "suggest_carts" then
          match embedInput a.payload_input with
          | none => Except.error (ApiError.badGateway "Failed to get embeddings from LLM")
          | some v => Except.ok (retrieveRelevantProducts dist v st.products)
        else
          Except.error (ApiError.internalServerError
            ("Action type " ++ a.action_type ++ " is not supported"))),
       markConfirmed st aid) := by
  have hconf : a.confirmed_at = none := by
    have hp := (head?_filter_prop _ _ _ hfind).2
    simp only [decide_eq_true_eq] at hp
    exact hp.2
  have hne : (st.chat_sessions.filter (fun s => decide (s.id = sid))).isEmpty = false := by
    rcases hsession with ⟨s, hs, hid⟩
    apply List.isEmpty_eq_false.mpr
    intro hnil
    have hall := List.filter_eq_nil_iff.mp hnil s hs
    simp [hid] at hall
  unfold confirmAction
  rw [hne, hfind]
  simp only [Bool.false_eq_true, if_false, hconf, Option.isSome_none]
  by_cases ht : a.action_type = "suggest_carts"
  · rw [if_pos ht, if_pos ht]
    cases hres : embedInput a.payload_input <;> rfl
  · rw [if_neg ht, if_neg ht]

/-- The confirmed_at UPDATE changes no executed_at, stamps confirmed_at with
the clock on every row with the given id, and leaves products and messages
untouched. -/
theorem markConfirmed_facts (st : Db) (aid : Nat) :
    (markConfirmed st aid).chat_messages_actions.map (fun x => x.executed_at) =
      st.chat_messages_actions.map (fun x => x.executed_at) ∧
    (∀ x ∈ (markConfirmed st aid).chat_messages_actions, x.id = aid →
      x.confirmed_at = some st.now) ∧
    (markConfirmed st aid).products = st.products ∧
    (markConfirmed st aid).chat_messages = st.chat_messages := by
  refine ⟨?_, ?_, rfl, rfl⟩
  · simp only [markConfirmed, List.map_map]
    apply List.map_congr_left
    intro x _
    by_cases h : x.id = aid <;> simp [h]
  · intro x hx hid
    simp only [markConfirmed, List.mem_map] at hx
    rcases hx with ⟨y, hy, hxy⟩
    by_cases h : y.id = aid
    · rw [← hxy, if_pos h]
    · exfalso
      rw [← hxy, if_neg h] at hid
      exact h hid

/-- The ConflictException branch of confirmAction is dead code: the action
lookup filters on confirmed_at IS NULL, so the re-check of
rows[0].confirmed_at can never fire and confirmAction never returns
Conflict. -/
theorem conflict_error_unreachable (embedInput : String → Option (List ℚ))
    (dist : List ℚ → List ℚ → ℚ) (st : Db) (sid aid : Nat) :
    (confirmAction embedInput dist st sid aid).1 ≠
      Except.error (ApiError.conflict "This action has already been confirmed") := by
  unfold confirmAction
  by_cases h1 : (st.chat_sessions.filter (fun s => decide (s.id = sid))).isEmpty
  · simp [h1]
  · simp only [Bool.not_eq_true] at h1
    rw [h1]
    simp only [Bool.false_eq_true, if_false]
    cases hf : (st.chat_messages_actions.filter
        (fun x => decide (x.id = aid ∧ x.confirmed_at = none))).head? with
    | none => simp
    | some a =>
      have hconf : a.confirmed_at = none := by
        have hp := (head?_filter_prop _ _ _ hf).2
        simp only [decide_eq_true_eq] at hp
        exact hp.2
      simp only [hconf, Option.isSome_none, Bool.false_eq_true, if_false]
      by_cases ht : a.action_type = "suggest_carts"
      · rw [if_pos ht]
        cases embedInput a.payload_input <;> simp
      · rw [if_neg ht]
        simp

/-- C1 counterexample: on the fixture, confirming the pending suggest_carts
action succeeds (returns the retrieval result, here the empty group list),
yet the action's executed_at is still NULL afterwards — confirmAction marks
confirmed_at but never writes executed_at, and the returned value is the
retrieval output, not an assembled cart-proposal list. -/
theorem confirm_success_leaves_executedAt_null :
    (confirmAction embedOk dist0 dbConfirm 1 5).1 = Except.ok [] ∧
    ∀ a ∈ (confirmAction embedOk dist0 dbConfirm 1 5).2.chat_messages_actions,
      a.id = 5 → (a.confirmed_at = some 3 ∧ a.executed_at = none) := by
  refine ⟨rfl, ?_⟩
  decide

/-- C1 as amended: for a pending suggest_carts action on an existing session,
a successful confirm embeds the payload input, runs the retrieval query and
returns the candidate products grouped by store directly; the provider's
cart-assembly operation is not involved, executed_at is left unchanged on
every action, and the action is marked confirmed. -/
theorem confirm_suggest_carts_returns_candidates (embedInput : String → Option (List ℚ))
    (dist : List ℚ → List ℚ → ℚ) (st : Db) (sid aid : Nat) (a : ChatMessageActionRow)
    (v : List ℚ)
    (hsession : ∃ s ∈ st.chat_sessions, s.id = sid)
    (hfind : (st.chat_messages_actions.filter
        (fun x => decide (x.id = aid ∧ x.confirmed_at = none))).head? = some a)
    (htype : a.action_type = "suggest_carts")
    (hembed : embedInput a.payload_input = some v) :
    confirmAction embedInput dist st sid aid =
      (Except.ok (retrieveRelevantProducts dist v st.products), markConfirmed st aid) ∧
    (markConfirmed st aid).chat_messages_actions.map (fun x => x.executed_at) =
      st.chat_messages_actions.map (fun x => x.executed_at) ∧
    ∀ x ∈ (markConfirmed st aid).chat_messages_actions, x.id = aid →
      x.confirmed_at = some st.now := by
  refine ⟨?_, (markConfirmed_facts st aid).1, (markConfirmed_facts st aid).2.1⟩
  rw [confirmAction_past_lookup embedInput dist st sid aid a hsession hfind, if_pos htype,
    hembed]

/-- Witness for the amended C1 at the fixture state. -/
theorem confirm_suggest_carts_returns_candidates_witness :
    confirmAction embedOk dist0 dbConfirm 1 5 =
      (Except.ok (retrieveRelevantProducts dist0 [] dbConfirm.products),
       markConfirmed dbConfirm 5) :=
  (confirm_suggest_carts_returns_candidates embedOk dist0 dbConfirm 1 5 actionW []
    (by decide) rfl rfl rfl).1

/-- C2: on the fixture where action 5 is already confirmed, a second confirm
with the valid session id 1 returns NotFound ("Action not found or already
confirmed"), not Conflict, and leaves the state unchanged. -/
theorem reconfirm_yields_notfound_not_conflict :
    confirmAction embedOk dist0 dbConfirmed 1 5 =
      (Except.error (ApiError.notFound "Action not found or already confirmed"), dbConfirmed) :=
  rfl

/-- C9: confirmAction never consults the chat_messages table, so the outcome
is the same whatever session the action's originating message belongs to
(replace the messages table by anything: the verdict and the actions table
are unchanged), and once the session exists and the lookup finds the row the
action is confirmed. In the fixture the proposing message belongs to
session 2 while the confirm call uses session 1. -/
theorem confirm_ignores_action_session_linkage (embedInput : String → Option (List ℚ))
    (dist : List ℚ → List ℚ → ℚ) (st : Db) (msgs2 : List ChatMessageRow) (sid aid : Nat)
    (a : ChatMessageActionRow)
    (hsession : ∃ s ∈ st.chat_sessions, s.id = sid)
    (hfind : (st.chat_messages_actions.filter
        (fun x => decide (x.id = aid ∧ x.confirmed_at = none))).head? = some a) :
    confirmAction embedInput dist { st with chat_messages := msgs2 } sid aid =
      ((confirmAction embedInput dist st sid aid).1,
       { (confirmAction embedInput dist st sid aid).2 with chat_messages := msgs2 }) ∧
    (confirmAction embedInput dist st sid aid).2 = markConfirmed st aid := by
  have h1 := confirmAction_past_lookup embedInput dist st sid aid a hsession hfind
  have h2 := confirmAction_past_lookup embedInput dist { st with chat_messages := msgs2 }
    sid aid a hsession hfind
  constructor
  · rw [h2, h1]
    exact rfl
  · rw [h1]

/-- Witness for C9 at the fixture: the confirmed action's message belongs to
session 2, which does not even exist, yet confirm(1, 5) proceeds. -/
theorem confirm_ignores_action_session_linkage_witness :
    confirmAction embedOk dist0 { dbConfirm with chat_messages := [] } 1 5 =
      ((confirmAction embedOk dist0 dbConfirm 1 5).1,
       { (confirmAction embedOk dist0 dbConfirm 1 5).2 with chat_messages := [] }) ∧
    (confirmAction embedOk dist0 dbConfirm 1 5).2 = markConfirmed dbConfirm 5 :=
  confirm_ignores_action_session_linkage embedOk dist0 dbConfirm [] 1 5 actionW
    (by decide) rfl

/-- C10: confirmed_at is written before the action_type dispatch, so on both
failing execution paths — embedding failure for suggest_carts, and an
unrecognized action type — the error is surfaced while the action stays
marked confirmed (the write is not rolled back). -/
theorem confirm_sets_confirmed_before_dispatch (embedInput : String → Option (List ℚ))
    (dist : List ℚ → List ℚ → ℚ) (st : Db) (sid aid : Nat) (a : ChatMessageActionRow)
    (hsession : ∃ s ∈ st.chat_sessions, s.id = sid)
    (hfind : (st.chat_messages_actions.filter
        (fun x => decide (x.id = aid ∧ x.confirmed_at = none))).head? = some a) :
    (a.action_type = "suggest_carts" → embedInput a.payload_input = none →
      confirmAction embedInput dist st sid aid =
        (Except.error (ApiError.badGateway "Failed to get embeddings from LLM"),
         markConfirmed st aid)) ∧
    (a.action_type ≠ "suggest_carts" →
      confirmAction embedInput dist st sid aid =
        (Except.error (ApiError.internalServerError
          ("Action type " ++ a.action_type ++ " is not supported")),
         markConfirmed st aid)) ∧
    ∀ x ∈ (markConfirmed st aid).chat_messages_actions, x.id = aid →
      x.confirmed_at = some st.now := by
  refine ⟨?_, ?_, (markConfirmed_facts st aid).2.1⟩
  · intro ht he
    rw [confirmAction_past_lookup embedInput dist st sid aid a hsession hfind, if_pos ht, he]
  · intro ht
    rw [confirmAction_past_lookup embedInput dist st sid aid a hsession hfind, if_neg ht]

/-- Witness for C10: both failing execution paths on the fixture, each
leaving the action confirmed. -/
theorem confirm_sets_confirmed_before_dispatch_witness :
    confirmAction embedFail dist0 dbConfirm 1 5 =
      (Except.error (ApiError.badGateway "Failed to get embeddings from LLM"),
       markConfirmed dbConfirm 5) ∧
    confirmAction embedOk dist0 dbConfirm 1 6 =
      (Except.error (ApiError.internalServerError
        ("Action type " ++ actionOtherW.action_type ++ " is not supported")),
       markConfirmed dbConfirm 6) :=
  ⟨(confirm_sets_confirmed_before_dispatch embedFail dist0 dbConfirm 1 5 actionW
      (by decide) rfl).1 rfl rfl,
   (confirm_sets_confirmed_before_dispatch embedOk dist0 dbConfirm 1 6 actionOtherW
      (by decide) rfl).2.1 (by decide)⟩

/-- C4: when the provider's turn completion fails, addUserMessage surfaces a
BadGateway error, and the resulting state is exactly the old state with the
user message appended: the user message remains, no assistant message is
persisted, and the pending-action table is untouched (no rollback). -/
theorem failed_turn_preserves_history (answerMessage : String → Option String → Option LlmAnswer)
    (st : Db) (sid : Nat) (content : String)
    (hfail : answerMessage content (previousResponseRef st sid) = none) :
    addUserMessage answerMessage st sid content =
      (Except.error (ApiError.badGateway "Failed to get response from LLM"),
       (addMessageToSession st sid content Sender.user none MessageType.text).2) ∧
    (addMessageToSession st sid content Sender.user none MessageType.text).2.chat_messages =
      st.chat_messages ++
        [(addMessageToSession st sid content Sender.user none MessageType.text).1] ∧
    (addMessageToSession st sid content Sender.user none MessageType.text).1.sender =
      Sender.user ∧
    (addMessageToSession st sid content Sender.user none MessageType.text).2.chat_messages_actions =
      st.chat_messages_actions := by
  refine ⟨?_, rfl, rfl, rfl⟩
  simp only [addUserMessage, hfail]

/-- Witness for C4 at the fixture state. -/
theorem failed_turn_preserves_history_witness :
    addUserMessage llmFail dbConfirm 1 "quero um bolo" =
      (Except.error (ApiError.badGateway "Failed to get response from LLM"),
       (addMessageToSession dbConfirm 1 "quero um bolo" Sender.user none MessageType.text).2) :=
  (failed_turn_preserves_history llmFail dbConfirm 1 "quero um bolo" rfl).1

/-- The ON CONFLICT DO NOTHING insert preserves the uniqueness invariant on
(chat_message_id, action_type). -/
theorem insertPendingAction_preserves_unique (st : Db) (mid : Nat) (t input : String)
    (hpu : st.chat_messages_actions.Pairwise
      (fun a b => ¬ (a.chat_message_id = b.chat_message_id ∧ a.action_type = b.action_type))) :
    (insertPendingAction st mid t input).chat_messages_actions.Pairwise
      (fun a b => ¬ (a.chat_message_id = b.chat_message_id ∧ a.action_type = b.action_type)) := by
  unfold insertPendingAction
  by_cases hany : st.chat_messages_actions.any
      (fun a => decide (a.chat_message_id = mid ∧ a.action_type = t)) = true
  · rw [if_pos hany]
    exact hpu
  · rw [if_neg hany]
    show (st.chat_messages_actions ++ [_]).Pairwise _
    rw [List.pairwise_append]
    refine ⟨hpu, List.pairwise_singleton _ _, ?_⟩
    intro x hx y hy
    simp only [List.mem_singleton] at hy
    subst hy
    intro hcontra
    apply hany
    refine List.any_eq_true.mpr ⟨x, hx, ?_⟩
    simp only [decide_eq_true_eq]
    exact ⟨hcontra.1, hcontra.2⟩

/-- C5: the pending-action table keeps at most one row per
(chat_message_id, action_type): the insert preserves pairwise uniqueness, a
proposal for an already-present pair leaves the state unchanged, repeating
the insert is idempotent, and a whole addUserMessage turn preserves the
invariant. -/
theorem pending_action_unique_idempotent (st : Db) (mid : Nat) (t input : String) :
    (st.chat_messages_actions.Pairwise
        (fun a b => ¬ (a.chat_message_id = b.chat_message_id ∧ a.action_type = b.action_type)) →
      (insertPendingAction st mid t input).chat_messages_actions.Pairwise
        (fun a b => ¬ (a.chat_message_id = b.chat_message_id ∧ a.action_type = b.action_type))) ∧
    ((∃ a ∈ st.chat_messages_actions, a.chat_message_id = mid ∧ a.action_type = t) →
      insertPendingAction st mid t input = st) ∧
    (∀ input2, insertPendingAction (insertPendingAction st mid t input) mid t input2 =
      insertPendingAction st mid t input) ∧
    (∀ answerMessage sid content,
      st.chat_messages_actions.Pairwise
        (fun a b => ¬ (a.chat_message_id = b.chat_message_id ∧ a.action_type = b.action_type)) →
      (addUserMessage answerMessage st sid content).2.chat_messages_actions.Pairwise
        (fun a b => ¬ (a.chat_message_id = b.chat_message_id ∧ a.action_type = b.action_type))) := by
  refine ⟨insertPendingAction_preserves_unique st mid t input, ?_, ?_, ?_⟩
  · rintro ⟨a, ha, h1, h2⟩
    have hany : st.chat_messages_actions.any
        (fun x => decide (x.chat_message_id = mid ∧ x.action_type = t)) = true := by
      refine List.any_eq_true.mpr ⟨a, ha, ?_⟩
      simp only [decide_eq_true_eq]
      exact ⟨h1, h2⟩
    unfold insertPendingAction
    rw [if_pos hany]
  · intro input2
    by_cases hany : st.chat_messages_actions.any
        (fun a => decide (a.chat_message_id = mid ∧ a.action_type = t)) = true
    · unfold insertPendingAction
      rw [if_pos hany, if_pos hany]
    · have hany2 : (st.chat_messages_actions ++
          [({ id := st.nextActionId, chat_message_id := mid, action_type := t,
              payload_input := input, created_at := st.now, confirmed_at := none,
              executed_at := none } : ChatMessageActionRow)]).any
          (fun a => decide (a.chat_message_id = mid ∧ a.action_type = t)) = true := by
        rw [List.any_append]
        simp
      unfold insertPendingAction
      rw [if_neg hany]
      dsimp only
      rw [if_pos hany2]
  · intro answerMessage sid content hpu
    simp only [addUserMessage]
    split
    · exact hpu
    · split
      · exact insertPendingAction_preserves_unique _ _ _ _ hpu
      · exact hpu

/-- Witness for C5 at the fixture state, which already holds an action with
pair (3, suggest_carts): a duplicate proposal is ignored and the insert is
idempotent. -/
theorem pending_action_unique_idempotent_witness :
    insertPendingAction (insertPendingAction dbConfirm 3 "suggest_carts" "a") 3
        "suggest_carts" "b" =
      insertPendingAction dbConfirm 3 "suggest_carts" "a" ∧
    insertPendingAction dbConfirm 3 "suggest_carts" "zz" = dbConfirm :=
  ⟨(pending_action_unique_idempotent dbConfirm 3 "suggest_carts" "a").2.2.1 "b",
   (pending_action_unique_idempotent dbConfirm 3 "suggest_carts" "zz").2.1 (by decide)⟩

/-- C7 counterexample: both providers return an embedding of dimensionality
3 to the caller unchanged instead of surfacing a provider error — neither
embedInput checks the 1536 invariant. -/
theorem embed_dimensionality_unchecked_counterexample :
    OpenAiLlm.embedInput (some { data := [{ embedding := [1, 2, 3] }] }) = some [1, 2, 3] ∧
    GeminiLlm.embedInput (some { embeddings := some [{ values := some [1, 2, 3] }] }) =
      some [1, 2, 3] ∧
    ([1, 2, 3] : List ℚ).length ≠ 1536 := by
  refine ⟨rfl, rfl, ?_⟩
  decide

/-- C7 as amended: embedInput returns the provider's first embedding vector
unchanged whatever its dimensionality — no 1536 check is performed — and
fails (null) exactly on a failed call or a response carrying no embedding. -/
theorem embed_passes_provider_vector_through (v : List ℚ) (rest : List EmbeddingDatum)
    (tail : List GeminiContentEmbedding) :
    OpenAiLlm.embedInput (some { data := { embedding := v } :: rest }) = some v ∧
    GeminiLlm.embedInput (some { embeddings := some ({ values := some v } :: tail) }) =
      some v ∧
    OpenAiLlm.embedInput none = none ∧
    OpenAiLlm.embedInput (some { data := [] }) = none ∧
    GeminiLlm.embedInput none = none ∧
    GeminiLlm.embedInput (some { embeddings := none }) = none ∧
    GeminiLlm.embedInput (some { embeddings := some [] }) = none :=
  ⟨rfl, rfl, rfl, rfl, rfl, rfl, rfl⟩

/-- C8: a turn submission whose content is missing (or not a string) or the
empty string is rejected by the controller with BadRequest before anything
happens: the state is returned unchanged (no ChatMessage persisted) and the
result does not depend on the provider oracle (no provider call). -/
theorem empty_content_rejected_before_persistence
    (answerMessage : String → Option String → Option LlmAnswer) (st : Db) (sid : Nat) :
    controllerAddUserMessage answerMessage st sid (some "") =
      (Except.error (ApiError.badRequest "Content must be a non-empty string"), st) ∧
    controllerAddUserMessage answerMessage st sid none =
      (Except.error (ApiError.badRequest "Content must be a non-empty string"), st) :=
  ⟨rfl, rfl⟩

/-- Every row the LEFT JOIN produces for a message carries that message. -/
theorem mem_messageWithActions (st : Db) (m : ChatMessageRow) (x : SessionMessageView)
    (hx : x ∈ messageWithActions st m) : x.message = m := by
  unfold messageWithActions at hx
  cases h : st.chat_messages_actions.filter (fun a => decide (a.chat_message_id = m.id)) with
  | nil =>
    rw [h] at hx
    simp only [List.mem_singleton] at hx
    rw [hx]
  | cons a as =>
    rw [h] at hx
    simp only [List.mem_map] at hx
    rcases hx with ⟨b, _, hbx⟩
    rw [← hbx]

/-- C6: when the chat_messages table is in creation order (which append-only
writes with a monotone clock maintain), getChatSession returns the session's
messages monotonically ordered by created_at: read order equals append
order. -/
theorem session_read_creation_order (st : Db) (sid : Nat) (v : SessionView)
    (hsorted : st.chat_messages.Pairwise (fun a b => a.created_at ≤ b.created_at))
    (hread : getChatSession st sid = some v) :
    v.messages.Pairwise (fun x y => x.message.created_at ≤ y.message.created_at) := by
  unfold getChatSession at hread
  cases hfound : st.chat_sessions.find? (fun s => decide (s.id = sid)) with
  | none =>
    rw [hfound] at hread
    cases hread
  | some s =>
    rw [hfound] at hread
    have hv : v.messages =
        (st.chat_messages.filter (fun m => decide (m.chat_session_id = sid))).flatMap
          (messageWithActions st) := by
      cases hread
      rfl
    rw [hv]
    apply List.pairwise_flatMap.mpr
    constructor
    · intro m _
      apply List.pairwise_of_forall_mem_list
      intro x hx y hy
      rw [mem_messageWithActions st m x hx, mem_messageWithActions st m y hy]
    · apply List.Pairwise.imp ?_ (List.Pairwise.filter _ hsorted)
      intro a b hab x hx y hy
      rw [mem_messageWithActions st a x hx, mem_messageWithActions st b y hy]
      exact hab

/-- A user message at time 1 in session 1. -/
def msgU : ChatMessageRow :=
  { id := 1, chat_session_id := 1, content := "ola", sender := Sender.user,
    openai_message_id := none, message_type := MessageType.text, created_at := 1 }

/-- An assistant reply at time 2 in session 1. -/
def msgA2 : ChatMessageRow :=
  { id := 2, chat_session_id := 1, content := "posso ajudar?", sender := Sender.assistant,
    openai_message_id := some "resp-0", message_type := MessageType.text, created_at := 2 }

/-- Fixture state for the session read. -/
def dbRead : Db :=
  { chat_sessions := [sessionW], chat_messages := [msgU, msgA2],
    chat_messages_actions := [], products := [],
    nextMessageId := 3, nextActionId := 1, now := 3 }

/-- The view getChatSession returns on `dbRead`. -/
def viewW : SessionView :=
  { id := 1, created_at := 0, user_id := 1,
    messages := [{ message := msgU, action := none }, { message := msgA2, action := none }] }

/-- Witness for C6 at the fixture state. -/
theorem session_read_creation_order_witness :
    getChatSession dbRead 1 = some viewW ∧
    viewW.messages.Pairwise (fun x y => x.message.created_at ≤ y.message.created_at) :=
  ⟨by decide, session_read_creation_order dbRead 1 viewW (by decide) (by decide)⟩

/-- Characterization of the WHERE clause: a (row, distance) pair survives
iff the product occurs in the table, its embedding is non-NULL, the pair's
distance is the product's distance to the query, and it is strictly below
the threshold. -/
theorem mem_relevantRows (dist : List ℚ → List ℚ → ℚ) (query : List ℚ)
    (prods : List ProductRow) (r : ProductRow × ℚ) :
    r ∈ relevantRows dist query prods ↔
      (r.1 ∈ prods ∧ ∃ e, r.1.embedding = some e ∧ dist e query = r.2 ∧ r.2 < THRESHOLD) := by
  unfold relevantRows rowDistance
  rw [List.mem_filterMap]
  constructor
  · rintro ⟨p, hp, hf⟩
    cases hemb : p.embedding with
    | none =>
      rw [hemb] at hf
      simp at hf
    | some e =>
      rw [hemb] at hf
      dsimp only [Option.map_some'] at hf
      by_cases hd : dist e query < THRESHOLD
      · rw [if_pos hd] at hf
        cases hf
        exact ⟨hp, e, hemb, rfl, hd⟩
      · rw [if_neg hd] at hf
        cases hf
  · rintro ⟨hp, e, hemb, hde, hlt⟩
    refine ⟨r.1, hp, ?_⟩
    rw [hemb]
    dsimp only [Option.map_some']
    rw [hde, if_pos hlt]

/-- C3: the retrieval query returns exactly the products at distance
strictly below 0.65 (a product at distance exactly 0.65 is excluded, since
every returned candidate's score is strictly below the threshold), each
annotated with its distance score, grouped by store id; every returned
group is nonempty, so a store with no qualifying product is simply absent
from the result. -/
theorem retrieval_threshold_grouping (dist : List ℚ → List ℚ → ℚ) (query : List ℚ)
    (prods : List ProductRow) :
    (∀ g ∈ retrieveRelevantProducts dist query prods, g.products ≠ []) ∧
    (∀ g ∈ retrieveRelevantProducts dist query prods, ∀ c ∈ g.products,
      c.similary < THRESHOLD) ∧
    (∀ g ∈ retrieveRelevantProducts dist query prods, ∀ c ∈ g.products,
      ∃ p e, p ∈ prods ∧ p.embedding = some e ∧ dist e query < THRESHOLD ∧
        p.store_id = g.store_id ∧ c = mkCandidate (p, dist e query)) ∧
    (∀ p ∈ prods, ∀ e, p.embedding = some e → dist e query < THRESHOLD →
      ∃ g, g ∈ retrieveRelevantProducts dist query prods ∧ g.store_id = p.store_id ∧
        mkCandidate (p, dist e query) ∈ g.products) := by
  simp only [retrieveRelevantProducts]
  refine ⟨?_, ?_, ?_, ?_⟩
  · intro g hg
    rcases List.mem_map.mp hg with ⟨sid, hsid, hgdef⟩
    rcases List.mem_map.mp (List.mem_dedup.mp hsid) with ⟨r, hr, hrs⟩
    have hrf : r ∈ (relevantRows dist query prods).filter (fun x => x.1.store_id == sid) :=
      List.mem_filter.mpr ⟨hr, by simp [hrs]⟩
    have hcand : mkCandidate r ∈ g.products := by
      rw [← hgdef]
      exact List.mem_map.mpr ⟨r, hrf, rfl⟩
    exact List.ne_nil_of_mem hcand
  · intro g hg c hc
    rcases List.mem_map.mp hg with ⟨sid, _, hgdef⟩
    rw [← hgdef] at hc
    rcases List.mem_map.mp hc with ⟨r, hrf, hrc⟩
    have hr := (List.mem_filter.mp hrf).1
    rcases (mem_relevantRows dist query prods r).mp hr with ⟨_, e, _, _, hlt⟩
    rw [← hrc]
    exact hlt
  · intro g hg c hc
    rcases List.mem_map.mp hg with ⟨sid, _, hgdef⟩
    rw [← hgdef] at hc
    rcases List.mem_map.mp hc with ⟨r, hrf, hrc⟩
    have hmem := List.mem_filter.mp hrf
    rcases (mem_relevantRows dist query prods r).mp hmem.1 with ⟨hp, e, hemb, hde, hlt⟩
    refine ⟨r.1, e, hp, hemb, by rw [hde]; exact hlt, ?_, ?_⟩
    · rw [← hgdef]
      exact beq_iff_eq.mp hmem.2
    · rw [← hrc, hde]
  · intro p hp e hemb hlt
    have hrow : (p, dist e query) ∈ relevantRows dist query prods :=
      (mem_relevantRows dist query prods (p, dist e query)).mpr ⟨hp, e, hemb, rfl, hlt⟩
    have hsid : p.store_id ∈
        ((relevantRows dist query prods).map (fun r => r.1.store_id)).dedup :=
      List.mem_dedup.mpr (List.mem_map.mpr ⟨(p, dist e query), hrow, rfl⟩)
    refine ⟨_, List.mem_map.mpr ⟨p.store_id, hsid, rfl⟩, rfl, ?_⟩
    exact List.mem_map.mpr
      ⟨(p, dist e query), List.mem_filter.mpr ⟨hrow, by simp⟩, rfl⟩

/-- A distance function for one-dimensional fixture embeddings: the stored
coordinate is the distance to any query. -/
def distHead : List ℚ → List ℚ → ℚ := fun e _ => e.headD 1

/-- Catalog fixture realizing the spec's distance list
0.1, 0.5, 0.64, 0.65, 0.9: store 1 holds the products at distances 0.1 and
exactly 0.65, store 2 those at 0.5 and 0.64, store 3 only the one at 0.9. -/
def pr1 : ProductRow :=
  { id := 1, name := "farinha", price := 10, store_id := 1, embedding := some [1/10] }

/-- Product at distance 0.5 in store 2. -/
def pr2 : ProductRow :=
  { id := 2, name := "acucar", price := 8, store_id := 2, embedding := some [1/2] }

/-- Product at distance 0.64 in store 2. -/
def pr3 : ProductRow :=
  { id := 3, name := "ovos", price := 12, store_id := 2, embedding := some [16/25] }

/-- Product at distance exactly 0.65 in store 1. -/
def pr4 : ProductRow :=
  { id := 4, name := "chocolate", price := 20, store_id := 1, embedding := some [13/20] }

/-- Product at distance 0.9 in store 3. -/
def pr5 : ProductRow :=
  { id := 5, name := "fermento", price := 5, store_id := 3, embedding := some [9/10] }

/-- The catalog fixture. -/
def prodsW : List ProductRow := [pr1, pr2, pr3, pr4, pr5]

/-- Witness for C3 on the spec's boundary example: the product at distance
0.64 is retrieved into its store's group, and every retrieved candidate
scores strictly below 0.65 — so the products at 0.65 and 0.9 are excluded. -/
theorem retrieval_threshold_grouping_witness :
    (∃ g, g ∈ retrieveRelevantProducts distHead [] prodsW ∧ g.store_id = 2 ∧
      mkCandidate (pr3, distHead [16/25] []) ∈ g.products) ∧
    (∀ g ∈ retrieveRelevantProducts distHead [] prodsW, ∀ c ∈ g.products,
      c.similary < THRESHOLD) :=
  ⟨(retrieval_threshold_grouping distHead [] prodsW).2.2.2 pr3 (by simp [prodsW])
      [16/25] rfl (by norm_num [distHead, THRESHOLD, List.headD_cons]),
   (retrieval_threshold_grouping distHead [] prodsW).2.1⟩

end CartIA
